import Mathlib

/-!
Shallow embedding of the Threads auto-posting loop of mie-realestate-app
(scripts/threads/poster.mjs, the auto-reply cascade, and the lib modules
history / ai-generator / threads-api), together with theorems settling the
frozen claims C1..C10 about it.

Conventions of the embedding:
* JS numbers that hold counts are Nat, timestamps are Int (milliseconds,
  as produced by Date.getTime; subtracting N days via setDate equals
  subtracting N * 86400000 ms in UTC), money-free fractional values
  (weights, averages, probabilities, random draws) are Rat.
* JS strings are Lean String; text.includes(w) is substring containment
  on the underlying character lists; String.length counts characters
  where the JS source counts UTF-16 units (identical on the inputs used).
* Fallible JS code (awaited API calls that may throw) is embedded as
  Except ThrownError over explicitly supplied outcomes: a run is a pure
  function of the sequence of platform responses it would observe.
* File reads are embedded as an Option (Except String History): none is
  a missing file, some (.error e) a file whose contents fail to parse.
-/

namespace MieThreads

/-- A thrown JS Error as produced by apiCall: carries the HTTP status
(absent for errors constructed locally) and the message string. -/
structure ThrownError where
  status : Option Nat
  msg : String
  deriving DecidableEq, Repr

/-- Engagement metric snapshot: the object built by getInsights and stored
on a post record by updatePostEngagement.  Metrics missing from the API
response are recorded as 0 by the `?? 0` defaulting in getInsights. -/
structure Insights where
  views : Nat
  likes : Nat
  replies : Nat
  reposts : Nat
  quotes : Nat
  deriving DecidableEq, Repr

/-- A Post Record of the History Store (lib/history.mjs).  `date` is the
timestamp of the ISO date string; optional fields are the ones added
later by the Engagement Collector, plus repliedTo for reply records. -/
structure Post where
  date : Int
  category : String
  topicKey : String
  text : String
  threadId : String
  charCount : Nat
  account : String
  engagement : Option Insights
  engagementScore : Option Int
  engagementUpdatedAt : Option Int
  repliedTo : Option String
  deriving DecidableEq, Repr

/-- The parsed history file: `{ posts: [...] }`. -/
structure History where
  posts : List Post
  deriving DecidableEq, Repr

/-- The on-disk state of a history file: missing, unparsable, or parsed. -/
def HistoryFile : Type := Option (Except String History)

/-- A weighted topic category `{id, label, weight}` (lib/config.mjs shape,
consumed by selectCategory and getAdjustedWeights). -/
structure Category where
  id : String
  label : String
  weight : Rat
  deriving DecidableEq, Repr

/-- Milliseconds in a day. -/
def dayMs : Int := 86400000

def HISTORY_RETENTION_DAYS : Int := 90
def TOPIC_COOLDOWN_DAYS : Int := 14
def CATEGORY_COOLDOWN_DAYS : Int := 1
def LEARNING_WINDOW_DAYS : Int := 30

/-- Boolean contiguous-sublist check. -/
def listInfix (pat : List Char) : List Char → Bool
  | [] => pat.isEmpty
  | a :: rest => pat.isPrefixOf (a :: rest) || listInfix pat rest

/-- JS `text.includes(pat)`: pat occurs as a contiguous substring. -/
def jsIncludes (s pat : String) : Bool :=
  listInfix pat.data s.data

/-- JS `Math.round`: round half toward positive infinity. -/
def jsRound (x : Rat) : Int :=
  ⌊x + 1 / 2⌋

-- ============================================================
-- lib/history.mjs — History Store
-- ============================================================

/-- loadHistory (lib/history.mjs): missing file gives the empty history,
a JSON.parse failure is caught and also gives the empty history; only a
successfully parsed file contributes its contents. -/
def loadHistory (file : HistoryFile) : History :=
  match file with
  | none => ⟨[]⟩
  | some (Except.error _) => ⟨[]⟩
  | some (Except.ok h) => h

/-- saveHistory (lib/history.mjs): append the entry, then drop records
older than the 90-day retention window, then rewrite the file. -/
def saveHistory (entry : Post) (file : HistoryFile) (now : Int) : History :=
  let history := loadHistory file
  let posts := history.posts ++ [entry]
  ⟨posts.filter fun p => now - HISTORY_RETENTION_DAYS * dayMs < p.date⟩

/-- isCategoryCoolingDown (lib/history.mjs): the trend category is never
cooling down; otherwise some record of that category is younger than the
1-day cooldown window. -/
def isCategoryCoolingDown (categoryId : String) (file : HistoryFile) (now : Int) : Bool :=
  if categoryId = "trend" then false
  else
    let history := loadHistory file
    if history.posts.isEmpty then false
    else
      let cutoff := now - CATEGORY_COOLDOWN_DAYS * dayMs
      history.posts.any fun p => p.category = categoryId && cutoff < p.date

/-- isTopicCoolingDown (lib/history.mjs): some record with the same topic
key is younger than the 14-day cooldown window. -/
def isTopicCoolingDown (topicKey : String) (file : HistoryFile) (now : Int) : Bool :=
  let history := loadHistory file
  let cutoff := now - TOPIC_COOLDOWN_DAYS * dayMs
  history.posts.any fun p => p.topicKey = topicKey && cutoff < p.date

/-- calcEngagementScore (lib/history.mjs): replies*4 + reposts*2 +
quotes*3 + likes*1 (the `|| 0` defaults are absorbed by the Nat fields). -/
def calcEngagementScore (e : Insights) : Int :=
  (e.replies : Int) * 4 + (e.reposts : Int) * 2 + (e.quotes : Int) * 3 + (e.likes : Int) * 1

/-- The in-place mutation performed by updatePostEngagement on the record
found by threadId. -/
def setEngagement (p : Post) (ins : Insights) (now : Int) : Post :=
  { p with
      engagement := some ins
      engagementScore := some (calcEngagementScore ins)
      engagementUpdatedAt := some now }

/-- Replace the first post whose threadId matches (JS Array.find mutates
the found element in place; later records keep their order). -/
def updateFirstPost (tid : String) (ins : Insights) (now : Int) : List Post → List Post
  | [] => []
  | p :: rest =>
    if p.threadId = tid then setEngagement p ins now :: rest
    else p :: updateFirstPost tid ins now rest

/-- updatePostEngagement (lib/history.mjs): find the post by threadId and
set its engagement snapshot, recomputed score, and update time; when no
record matches, nothing is written. -/
def updatePostEngagement (tid : String) (ins : Insights) (h : History) (now : Int) : History :=
  ⟨updateFirstPost tid ins now h.posts⟩

/-- getPostsNeedingEngagement (lib/history.mjs): records with a real
(non-dry-run) post id, not replies, with no engagement snapshot yet, and
older than 24 hours. -/
def getPostsNeedingEngagement (h : History) (now : Int) : List Post :=
  let oneDayAgo := now - dayMs
  h.posts.filter fun p =>
    p.threadId ≠ "" && p.threadId ≠ "dry-run" && p.repliedTo.isNone &&
      p.engagement.isNone && p.date < oneDayAgo

/-- Per-category accumulation of analyzeCategoryPerformance. -/
structure CatStat where
  totalScore : Int
  postCount : Nat
  deriving DecidableEq, Repr

/-- Per-category result of analyzeCategoryPerformance.  The topPosts list
(used only to build prompt hints) is omitted: no function embedded here
reads it. -/
structure CatPerf where
  avgScore : Rat
  postCount : Nat
  deriving DecidableEq, Repr

/-- Association-list update preserving JS object key insertion order. -/
def bumpStat (catId : String) (score : Int) : List (String × CatStat) → List (String × CatStat)
  | [] => [(catId, ⟨score, 1⟩)]
  | (k, s) :: rest =>
    if k = catId then (k, ⟨s.totalScore + score, s.postCount + 1⟩) :: rest
    else (k, s) :: bumpStat catId score rest

/-- The grouping loop of analyzeCategoryPerformance over the filtered
posts, in iteration order. -/
def groupStats : List Post → List (String × CatStat) → List (String × CatStat)
  | [], acc => acc
  | p :: rest, acc => groupStats rest (bumpStat p.category (p.engagementScore.getD 0) acc)

/-- analyzeCategoryPerformance (lib/history.mjs): over the trailing
30-day window, keep posts that have an engagement snapshot and are not
replies; none when the filtered set is empty; otherwise the mean score
per category. -/
def analyzeCategoryPerformance (file : HistoryFile) (now : Int) : Option (List (String × CatPerf)) :=
  let history := loadHistory file
  let cutoff := now - LEARNING_WINDOW_DAYS * dayMs
  let recentWithEngagement := history.posts.filter fun p =>
    cutoff < p.date && p.engagement.isSome && p.repliedTo.isNone
  if recentWithEngagement.isEmpty then none
  else
    let stats := groupStats recentWithEngagement []
    some (stats.map fun (k, s) =>
      (k, ⟨if 0 < s.postCount then (s.totalScore : Rat) / (s.postCount : Rat) else 0, s.postCount⟩))

/-- Alist lookup corresponding to `perf[cat.id]`. -/
def lookupPerf (catId : String) : List (String × CatPerf) → Option CatPerf
  | [] => none
  | (k, v) :: rest => if k = catId then some v else lookupPerf catId rest

/-- The clamp `Math.max(0.5, Math.min(1.5, ratio))`. -/
def clampMultiplier (ratio : Rat) : Rat :=
  max (1 / 2) (min (3 / 2) ratio)

/-- The overall average `allScores.reduce(...) / allScores.length`. -/
def overallAvg (perf : List (String × CatPerf)) : Rat :=
  (perf.map fun kv => kv.2.avgScore).sum / (perf.length : Rat)

/-- getAdjustedWeights (lib/history.mjs): no data, fewer than 3
categories with data, or a zero overall average leaves every base weight
untouched; a category absent from the data or with fewer than 2 samples
keeps its weight; otherwise the weight becomes
round(weight * clamp(avg / overallAvg, 0.5, 1.5)). -/
def getAdjustedWeights (baseCategories : List Category) (file : HistoryFile) (now : Int) :
    List Category :=
  match analyzeCategoryPerformance file now with
  | none => baseCategories
  | some perf =>
    if perf.length < 3 then baseCategories
    else
      let totalAvg := overallAvg perf
      if totalAvg = 0 then baseCategories
      else
        baseCategories.map fun cat =>
          match lookupPerf cat.id perf with
          | none => cat
          | some catPerf =>
            if catPerf.postCount < 2 then cat
            else
              let ratio := catPerf.avgScore / totalAvg
              let multiplier := clampMultiplier ratio
              { cat with weight := (jsRound (cat.weight * multiplier) : Rat) }

-- ============================================================
-- poster.mjs — selectCategory
-- ============================================================

/-- The weighted-random loop of selectCategory (poster.mjs): subtract
each weight from the drawn threshold and return the first candidate that
drives it to 0 or below. -/
def drawLoop : List Category → Rat → Option Category
  | [], _ => none
  | c :: rest, r =>
    if r - c.weight ≤ 0 then some c else drawLoop rest (r - c.weight)

/-- The weighted-random draw with the hard fallback to the final
candidate (`return available[available.length - 1]`). -/
def weightedDraw (available : List Category) (random : Rat) : Option Category :=
  match drawLoop available random with
  | some c => some c
  | none => available.getLast?

/-- selectCategory (poster.mjs), business branch, no FORCE_CATEGORY:
learned-weight adjustment, trend zeroing when no trend signal, the
positive-weight filter, the cooldown filter, the unfiltered fallback when
every candidate is cooling down, else the weighted draw.  `rnd` is the
Math.random() draw in [0,1) and `fallbackIdx` the index drawn for the
all-cooling-down fallback. -/
def selectCategory (baseCategories : List Category) (trendAvailable : Bool)
    (file : HistoryFile) (now : Int) (rnd : Rat) (fallbackIdx : Nat) : Option Category :=
  let adjusted := getAdjustedWeights baseCategories file now
  let categories := (adjusted.map fun c =>
    if c.id = "trend" && !trendAvailable then { c with weight := 0 } else c).filter
      fun c => 0 < c.weight
  let available := categories.filter fun c => !isCategoryCoolingDown c.id file now
  if available.isEmpty then categories.get? (fallbackIdx % categories.length)
  else
    let totalWeight := (available.map fun c => c.weight).sum
    weightedDraw available (rnd * totalWeight)

-- ============================================================
-- Buzz Reply Cascade (auto-reply script)
-- ============================================================

/-- A buzz tier `{ level, probability }` as returned by getBuzzLevel. -/
structure BuzzLevel where
  level : String
  probability : Rat
  deriving DecidableEq, Repr

/-- getBuzzLevel: thresholds evaluated highest-first on views/likes; the
input is the possibly empty insights object, its possibly missing fields
defaulted to 0 by `insights?.views || 0`. -/
def getBuzzLevel (insights : Option Insights) : BuzzLevel :=
  let views := (insights.map Insights.views).getD 0
  let likes := (insights.map Insights.likes).getD 0
  if 5000 ≤ views ∨ 20 ≤ likes then ⟨"SUPER_BUZZ", 1⟩
  else if 2000 ≤ views ∨ 10 ≤ likes then ⟨"BUZZ", 4 / 5⟩
  else if 1000 ≤ views ∨ 5 ≤ likes then ⟨"RISING", 1 / 2⟩
  else ⟨"NORMAL", 1 / 5⟩

/-- The observable outcomes of one candidate iteration of the reply loop:
whether the dedup ledger already has it, the insights fetch, the
Math.random() draw of shouldReply, the generated reply text, and the
publishReply outcome.  The genResult field is modelled from the spec:
the reply generator called here (generateBusinessReply) is not part of
the source snapshot, and per the error-handling design a generation
call is retried with backoff up to a fixed attempt count and then
escalated, so its outcome is an Except, exactly like the sibling
generateReply in the snapshot, whose retry wrapper rethrows the last
error. -/
structure ReplyCandidate where
  threadId : String
  alreadyReplied : Bool
  insightsResult : Except ThrownError Insights
  draw : Rat
  genResult : Except ThrownError String
  publishResult : Except ThrownError String
  deriving Repr

/-- The candidate loop of the auto-reply main.  Returns none when an
uncaught error escapes the loop (the reply-text generation is awaited
outside any try, so its failure is fatal for the whole run), otherwise
the final repliedCount.  Insights-fetch failures and publish failures are
caught inside the loop and skip only their candidate. -/
def buzzLoop : List ReplyCandidate → Nat → Nat → Option Nat
  | [], replied, _ => some replied
  | c :: rest, replied, remaining =>
    if remaining ≤ replied then some replied
    else if c.alreadyReplied then buzzLoop rest replied remaining
    else
      match c.insightsResult with
      | Except.error _ => buzzLoop rest replied remaining
      | Except.ok ins =>
        if c.draw < (getBuzzLevel (some ins)).probability then
          match c.genResult with
          | Except.error _ => none
          | Except.ok _ =>
            match c.publishResult with
            | Except.error _ => buzzLoop rest replied remaining
            | Except.ok _ => buzzLoop rest (replied + 1) remaining
        else buzzLoop rest replied remaining

/-- The number of replies that actually succeeded during the run,
counting the prefix completed before a fatal generation error. -/
def buzzSuccessCount : List ReplyCandidate → Nat → Nat → Nat
  | [], replied, _ => replied
  | c :: rest, replied, remaining =>
    if remaining ≤ replied then replied
    else if c.alreadyReplied then buzzSuccessCount rest replied remaining
    else
      match c.insightsResult with
      | Except.error _ => buzzSuccessCount rest replied remaining
      | Except.ok ins =>
        if c.draw < (getBuzzLevel (some ins)).probability then
          match c.genResult with
          | Except.error _ => replied
          | Except.ok _ =>
            match c.publishResult with
            | Except.error _ => buzzSuccessCount rest replied remaining
            | Except.ok _ => buzzSuccessCount rest (replied + 1) remaining
        else buzzSuccessCount rest replied remaining

def MAX_DAILY_REPLIES : Nat := 10

/-- The auto-reply main as a function to the process exit code: 0 when
the daily cap is already reached or there are no candidates; 1 when a
fatal error escapes the loop (main().catch exits 1); after a completed
loop, 1 exactly when candidates existed and repliedCount stayed 0. -/
def buzzMain (todayCount : Nat) (candidates : List ReplyCandidate) : Nat :=
  if MAX_DAILY_REPLIES ≤ todayCount then 0
  else if candidates.isEmpty then 0
  else
    match buzzLoop candidates 0 (MAX_DAILY_REPLIES - todayCount) with
    | none => 1
    | some replied => if replied = 0 then 1 else 0

-- ============================================================
-- threads-api — Publisher state machine
-- ============================================================

/-- One status-poll observation: either the parsed response body
`{status, error_message}` or a thrown apiCall error. -/
inductive PollResult where
  | ok (status : String) (errorMessage : Option String)
  | fail (httpStatus : Option Nat) (msg : String)
  deriving Repr

/-- JS `o || fallback` on an optional string (the empty string is falsy). -/
def jsOrString (o : Option String) (fallback : String) : String :=
  match o with
  | none => fallback
  | some s => if s = "" then fallback else s

/-- The condition of the polling catch block:
`e.status === 404 || e.message?.includes("does not exist")`. -/
def isTransientErr (e : ThrownError) : Bool :=
  e.status == some 404 || jsIncludes e.msg "does not exist"

/-- One iteration of the waitForContainerReady try/catch: FINISHED ends
the poll, a thrown error (from apiCall, or the locally constructed
container-error for an ERROR status) is retried when the catch condition
holds and rethrown otherwise, anything else (IN_PROGRESS) continues. -/
def pollStep (r : PollResult) : Except ThrownError Bool :=
  match r with
  | PollResult.ok status errorMessage =>
    if status = "FINISHED" then Except.ok true
    else if status = "ERROR" then
      let e : ThrownError := ⟨none, "コンテナエラー: " ++ jsOrString errorMessage "不明なエラー"⟩
      if isTransientErr e then Except.ok false else Except.error e
    else Except.ok false
  | PollResult.fail st msg =>
    let e : ThrownError := ⟨st, msg⟩
    if isTransientErr e then Except.ok false else Except.error e

/-- The timeout error thrown after the retry budget is exhausted
(`maxRetries * intervalMs / 1000` seconds with intervalMs = 2000). -/
def timeoutError (maxRetries : Nat) : ThrownError :=
  ⟨none, "コンテナが" ++ toString (maxRetries * 2000 / 1000) ++ "秒以内にFINISHEDになりませんでした"⟩

/-- The bounded polling loop, iterating over the response sequence with
the remaining retry budget as fuel. -/
def waitGo (responses : Nat → PollResult) (maxRetries : Nat) : Nat → Nat → Except ThrownError String
  | _, 0 => Except.error (timeoutError maxRetries)
  | i, fuel + 1 =>
    match pollStep (responses i) with
    | Except.ok true => Except.ok "FINISHED"
    | Except.ok false => waitGo responses maxRetries (i + 1) fuel
    | Except.error e => Except.error e

/-- waitForContainerReady (threads-api): poll the container status at
most maxRetries times (default 10 in the source); FINISHED succeeds, a
non-transient error is fatal, running out of retries throws the timeout
error. -/
def waitForContainerReady (responses : Nat → PollResult) (maxRetries : Nat) :
    Except ThrownError String :=
  waitGo responses maxRetries 0 maxRetries

/-- The platform responses one publishPost call would observe: container
creation, the status polls, and the publish endpoint. -/
structure PublishEnv where
  createResult : Except ThrownError String
  pollResponses : Nat → PollResult
  publishResult : Except ThrownError String

/-- publishPost (threads-api): create the container, wait until it is
FINISHED, then call the publish endpoint, which returns the post id.
Every step propagates its thrown error. -/
def publishPost (env : PublishEnv) : Except ThrownError String := do
  let _containerId ← env.createResult
  let _status ← waitForContainerReady env.pollResponses 10
  env.publishResult

/-- The history entry appended by the poster main after a publish. -/
def mkPostEntry (now : Int) (category topicKey text threadId account : String) : Post :=
  { date := now
    category := category
    topicKey := topicKey
    text := text
    threadId := threadId
    charCount := text.length
    account := account
    engagement := none
    engagementScore := none
    engagementUpdatedAt := none
    repliedTo := none }

/-- The tail of the poster main (publish then record): in dry-run mode
the record is written with threadId "dry-run" and no network call; in a
real run a publish failure propagates to main().catch, which exits 1
without touching the history file, while a successful publish appends
the record and exits 0.  The first component is the resulting on-disk
history file, the second the process exit code. -/
def publishAndRecord (dryRun : Bool) (env : PublishEnv)
    (postText category topicKey account : String) (file : HistoryFile) (now : Int) :
    HistoryFile × Nat :=
  if dryRun then
    (some (Except.ok (saveHistory (mkPostEntry now category topicKey postText "dry-run" account) file now)), 0)
  else
    match publishPost env with
    | Except.error _ => (file, 1)
    | Except.ok tid =>
      (some (Except.ok (saveHistory (mkPostEntry now category topicKey postText tid account) file now)), 0)

-- ============================================================
-- ai-generator.mjs — Generator/Validator
-- ============================================================

/-- The three token blocklists of lib/config.mjs.  config.mjs itself is
not part of the source snapshot; validatePost only iterates the lists,
so they are parameters of the embedding. -/
structure ValidationConfig where
  corporate : List String
  pr : List String
  jargon : List String

/-- Split on runs of two or more newlines (the regex split \n\n+ used by
the paragraph check), as a one-pass state machine: mode 0 scans inside a
segment, mode 1 has just seen a single newline (which still belongs to
the segment unless a second follows), mode 2 is inside a separator run
of newlines. -/
def splitNLGo : List Char → Nat → List Char → List (List Char)
  | [], 1, cur => [('\n' :: cur).reverse]
  | [], _, cur => [cur.reverse]
  | c :: rest, 0, cur =>
    if c = '\n' then splitNLGo rest 1 cur else splitNLGo rest 0 (c :: cur)
  | c :: rest, 1, cur =>
    if c = '\n' then cur.reverse :: splitNLGo rest 2 []
    else splitNLGo rest 0 (c :: '\n' :: cur)
  | c :: rest, _, cur =>
    if c = '\n' then splitNLGo rest 2 [] else splitNLGo rest 0 [c]

def splitParagraphs (s : String) : List String :=
  (splitNLGo s.data 0 []).map fun l => String.mk l

/-- JS String.prototype.trim: drop whitespace from both ends. -/
def jsTrim (s : String) : String :=
  String.mk (((s.data.dropWhile Char.isWhitespace).reverse.dropWhile Char.isWhitespace).reverse)

/-- validatePost (ai-generator.mjs): collect the rule violations, in
source order: length over 500, any hashtag character, the first matching
corporate-tone token, the first matching PR-tone token, the first
matching jargon token, more than 5 nonblank paragraphs. -/
def validatePost (cfg : ValidationConfig) (text : String) : List String :=
  let lenErr := if 500 < text.length then ["文字数超過 (" ++ toString text.length ++ "/500)"] else []
  let hashtagCount := text.data.count '#'
  let tagErr := if 0 < hashtagCount then ["ハッシュタグ検出 (" ++ toString hashtagCount ++ "個 → タグなしにしろ。インプレが下がる)"] else []
  let corpErr := match cfg.corporate.find? (fun w => jsIncludes text w) with
    | some w => ["企業トーン検出: \"" ++ w ++ "\""]
    | none => []
  let prErr := match cfg.pr.find? (fun w => jsIncludes text w) with
    | some w => ["PR臭検出: \"" ++ w ++ "\""]
    | none => []
  let jargonErr := match cfg.jargon.find? (fun w => jsIncludes text w) with
    | some w => ["専門用語検出: \"" ++ w ++ "\" → わかりやすい言葉に置き換えて"]
    | none => []
  let paragraphs := (splitParagraphs text).filter fun p => jsTrim p ≠ ""
  let paraErr := if 5 < paragraphs.length then ["段落多すぎ (" ++ toString paragraphs.length ++ "段落 → 5以下に)"] else []
  lenErr ++ tagErr ++ corpErr ++ prErr ++ jargonErr ++ paraErr

/-- The final-attempt fallback `trimmed.slice(0, 497) + "..."`. -/
def truncate497 (s : String) : String :=
  String.mk (s.data.take 497) ++ "..."

/-- The attempt loop of generatePost.  `gen attempt` is the text the
generation service returns on that attempt (the source varies only the
appended corrective instruction between attempts, which is folded into
the index).  The fuel equals the remaining attempts. -/
def generatePostGo (gen : Nat → String) (cfg : ValidationConfig) : Nat → Nat → String
  | _, 0 => ""
  | attempt, fuel + 1 =>
    let trimmed := jsTrim (gen attempt)
    if validatePost cfg trimmed = [] then trimmed
    else if attempt = 3 then truncate497 trimmed
    else generatePostGo gen cfg (attempt + 1) fuel

/-- generatePost (ai-generator.mjs, lines 159-185): up to 3 attempts;
the first validated text is returned; exhausting the attempts returns
the last text cut to the length limit.  Note the source function takes
only the prompt: it has no isStealth parameter and no null-returning
path, although its caller in poster.mjs passes
`{ systemPrompt, isStealth }` and checks the result against null. -/
def generatePost (gen : Nat → String) (cfg : ValidationConfig) : String :=
  generatePostGo gen cfg 1 3

-- ============================================================
-- Engagement Collector
-- ============================================================

def zeroInsights : Insights := ⟨0, 0, 0, 0, 0⟩

/-- getInsights (threads-api, account-aware version): the insights API
call is wrapped in its own try/catch; a failure is logged and the
all-zero metrics object is returned instead of rethrowing. -/
def getInsights (apiResult : Except ThrownError Insights) : Insights :=
  match apiResult with
  | Except.ok d => d
  | Except.error _ => zeroInsights

/-- collectEngagement (poster.mjs): fetch insights for at most 10
records needing engagement and record each snapshot sequentially.
`outcomes` gives the insights API outcome per thread id.  The catch
inside the loop fires only for failures thrown past getInsights (such as
missing credentials, an environment-level condition), since getInsights
swallows its own API errors; the per-record API outcome therefore never
aborts or skips an iteration here. -/
def collectStep (outcomes : String → Except ThrownError Insights) (now : Int)
    (acc : History) (post : Post) : History :=
  updatePostEngagement post.threadId (getInsights (outcomes post.threadId)) acc now

def collectEngagement (h : History) (outcomes : String → Except ThrownError Insights)
    (now : Int) : History :=
  let postsToCheck := getPostsNeedingEngagement h now
  (postsToCheck.take 10).foldl (collectStep outcomes now) h

/-- The record a later lookup by thread id observes. -/
def findPost (tid : String) (h : History) : Option Post :=
  h.posts.find? fun p => p.threadId = tid

-- ============================================================
-- Concrete instances used by counterexamples and witnesses
-- ============================================================

/-- Candidate category a of the C3 scenario. -/
def catA : Category := ⟨"a", "a", 10⟩

/-- Candidate category b of the C3 scenario. -/
def catB : Category := ⟨"b", "b", 10⟩

/-- Poll responses whose first status query answers ERROR with a
platform message that happens to contain the words "does not exist". -/
def pollED : Nat → PollResult := fun i =>
  if i = 0 then PollResult.ok "ERROR" (some "this container does not exist")
  else PollResult.ok "FINISHED" none

/-- A platform run where container creation, polling and publishing all
succeed and the publish endpoint returns post id "tid1". -/
def envSuccess : PublishEnv :=
  ⟨Except.ok "c1", fun _ => PollResult.ok "FINISHED" none, Except.ok "tid1"⟩

/-- The insights of the dry-run sample post (BUZZ tier). -/
def buzzInsights : Insights := ⟨3000, 12, 3, 0, 0⟩

/-- A reply candidate whose whole pipeline succeeds (draw 0 is below
every tier probability). -/
def candOk : ReplyCandidate :=
  ⟨"t1", false, Except.ok buzzInsights, 0, Except.ok "reply text", Except.ok "rid1"⟩

/-- A reply candidate whose reply-text generation throws after its
retry budget. -/
def candGenFail : ReplyCandidate :=
  ⟨"t2", false, Except.ok buzzInsights, 0,
    Except.error ⟨some 500, "Claude API 500: overloaded"⟩, Except.ok "rid2"⟩

/-- A generation service that answers every attempt with 501 characters,
so every validation fails on the length rule. -/
def overlongGen : Nat → String := fun _ => String.mk (List.replicate 501 'a')

/-- Empty blocklists (their contents are irrelevant to the length
rule). -/
def emptyCfg : ValidationConfig := ⟨[], [], []⟩

/-- A post record carrying an engagement score, for building learning
histories. -/
def mkEngPost (catId : String) (score : Int) (tid : String) : Post :=
  { date := 0
    category := catId
    topicKey := "k"
    text := "t"
    threadId := tid
    charCount := 1
    account := "business"
    engagement := some zeroInsights
    engagementScore := some score
    engagementUpdatedAt := some 0
    repliedTo := none }

/-- A history with three categories of engagement data: x sampled twice
with score 0, y and z once each. -/
def c4File : HistoryFile :=
  some (Except.ok ⟨[mkEngPost "x" 0 "p1", mkEngPost "x" 0 "p2",
    mkEngPost "y" 12 "p3", mkEngPost "z" 6 "p4"]⟩)

/-- The per-category performance of c4File. -/
def perfC4 : List (String × CatPerf) := [("x", ⟨0, 2⟩), ("y", ⟨12, 1⟩), ("z", ⟨6, 1⟩)]

/-- The base category adjusted in the C4 witness. -/
def catX : Category := ⟨"x", "x", 10⟩

/-- A history with engagement data in only two categories. -/
def c8File : HistoryFile :=
  some (Except.ok ⟨[mkEngPost "x" 4 "q1", mkEngPost "y" 2 "q2"]⟩)

/-- The per-category performance of c8File. -/
def perfC8 : List (String × CatPerf) := [("x", ⟨4, 1⟩), ("y", ⟨2, 1⟩)]

/-- A day-old published post with no engagement snapshot yet. -/
def c9Post : Post :=
  { date := -(2 * dayMs)
    category := "aruaru"
    topicKey := "k1"
    text := "t"
    threadId := "t1"
    charCount := 1
    account := "a1"
    engagement := none
    engagementScore := none
    engagementUpdatedAt := none
    repliedTo := none }

/-- A second day-old post, thread id t2. -/
def c9Post2 : Post :=
  { c9Post with threadId := "t2", topicKey := "k2" }

def c9Hist : History := ⟨[c9Post]⟩

def c9Hist2 : History := ⟨[c9Post, c9Post2]⟩

/-- An insights API that fails every fetch. -/
def c9FailOutcomes : String → Except ThrownError Insights :=
  fun _ => Except.error ⟨some 500, "Threads API 500: fail"⟩

/-- An insights API that fails for t1 and answers for t2. -/
def c9MixedOutcomes : String → Except ThrownError Insights :=
  fun tid =>
    if tid = "t1" then Except.error ⟨some 500, "Threads API 500: fail"⟩
    else Except.ok ⟨5, 2, 1, 0, 0⟩

-- ============================================================
-- Theorems
-- ============================================================

/-- C7: the buzz tiers are decided highest-first on views/likes: 5000
views or 20 likes give SUPER_BUZZ (probability 1), else 2000/10 give
BUZZ (0.8), else 1000/5 give RISING (0.5), else NORMAL (0.2); in
particular views=1000 with likes=4 lands in RISING with probability
0.5. -/
theorem c7_buzz_tier_classification :
    (∀ v l : Nat,
      (getBuzzLevel (some ⟨v, l, 0, 0, 0⟩) = ⟨"SUPER_BUZZ", 1⟩ ↔ 5000 ≤ v ∨ 20 ≤ l)
      ∧ (getBuzzLevel (some ⟨v, l, 0, 0, 0⟩) = ⟨"BUZZ", 4 / 5⟩ ↔
          (v < 5000 ∧ l < 20) ∧ (2000 ≤ v ∨ 10 ≤ l))
      ∧ (getBuzzLevel (some ⟨v, l, 0, 0, 0⟩) = ⟨"RISING", 1 / 2⟩ ↔
          (v < 2000 ∧ l < 10) ∧ (1000 ≤ v ∨ 5 ≤ l))
      ∧ (getBuzzLevel (some ⟨v, l, 0, 0, 0⟩) = ⟨"NORMAL", 1 / 5⟩ ↔ v < 1000 ∧ l < 5))
    ∧ getBuzzLevel (some ⟨1000, 4, 0, 0, 0⟩) = ⟨"RISING", 1 / 2⟩ := by
  constructor
  · intro v l
    have hq1 : (1 : Rat) ≠ 4 / 5 := by norm_num
    have hq2 : (1 : Rat) ≠ 1 / 2 := by norm_num
    have hq3 : (1 : Rat) ≠ 1 / 5 := by norm_num
    have hq4 : (4 / 5 : Rat) ≠ 1 / 2 := by norm_num
    have hq5 : (4 / 5 : Rat) ≠ 1 / 5 := by norm_num
    have hq6 : (1 / 2 : Rat) ≠ 1 / 5 := by norm_num
    simp only [getBuzzLevel, Option.map_some', Option.getD_some]
    split_ifs with h1 h2 h3 <;>
      refine ⟨?_, ?_, ?_, ?_⟩ <;>
        simp_all [BuzzLevel.mk.injEq] <;> omega
  · rfl

/-- C3 counterexample: with candidates a and b of weight 10 each, no
cooldowns, and the drawn threshold exactly 10 (Math.random() = 0.5 on a
total weight of 20), the draw returns a, not b: subtracting the weight
of a makes the threshold exactly 0 and the loop returns on threshold
≤ 0. -/
theorem c3_draw_boundary_counterexample :
    weightedDraw [catA, catB] 10 = some catA
    ∧ selectCategory [catA, catB] false none 0 (1 / 2) 0 = some catA
    ∧ weightedDraw [catA, catB] 10 ≠ some catB := by
  have ha : ¬("a" : String) = "trend" := by decide
  have hb : ¬("b" : String) = "trend" := by decide
  refine ⟨?_, ?_, ?_⟩
  · norm_num [weightedDraw, drawLoop, catA, catB]
  · norm_num [selectCategory, getAdjustedWeights, analyzeCategoryPerformance, loadHistory,
      isCategoryCoolingDown, weightedDraw, drawLoop, catA, catB, ha, hb]
  · norm_num [weightedDraw, drawLoop, catA, catB]
    decide

/-- C3 amended: in the scenario with candidates a and b of weight 10
each and no cooldowns, a threshold of at most 10 — including exactly
10 — selects a, and only a threshold strictly above 10 selects b. -/
theorem c3_draw_boundary (r : Rat) (h0 : 0 ≤ r) (h20 : r < 20) :
    (r ≤ 10 → weightedDraw [catA, catB] r = some catA)
    ∧ (10 < r → weightedDraw [catA, catB] r = some catB) := by
  constructor
  · intro hr
    have hc : r - catA.weight ≤ 0 := by simp only [catA]; linarith
    simp [weightedDraw, drawLoop, hc]
  · intro hr
    have hc1 : ¬(r - catA.weight ≤ 0) := by simp only [catA]; push_neg; linarith
    have hc2 : r - catA.weight - catB.weight ≤ 0 := by simp only [catA, catB]; linarith
    simp [weightedDraw, drawLoop, hc1, hc2]

theorem c3_draw_boundary_witness :
    (0 : Rat) ≤ 10 ∧ (10 : Rat) < 20 ∧ (10 : Rat) ≤ 10
    ∧ weightedDraw [catA, catB] 10 = some catA :=
  ⟨by norm_num, by norm_num, le_refl 10,
    (c3_draw_boundary 10 (by norm_num) (by norm_num)).1 (le_refl 10)⟩

/-- C10: loading the history store is total: a missing file and an
unparsable file both give the empty history, and consequently every
cooldown check and the learned-weight adjustment behave as on an empty
history instead of failing the run. -/
theorem c10_load_history_total :
    loadHistory none = ⟨[]⟩
    ∧ (∀ e : String, loadHistory (some (Except.error e)) = ⟨[]⟩)
    ∧ (∀ (e catId : String) (now : Int),
        isCategoryCoolingDown catId (some (Except.error e)) now = false)
    ∧ (∀ (e tk : String) (now : Int),
        isTopicCoolingDown tk (some (Except.error e)) now = false)
    ∧ (∀ (e : String) (base : List Category) (now : Int),
        getAdjustedWeights base (some (Except.error e)) now = base) := by
  refine ⟨rfl, fun e => rfl, ?_, fun e tk now => rfl, fun e base now => rfl⟩
  intro e catId now
  simp [isCategoryCoolingDown, loadHistory]

/-- C5 counterexample: a status poll that answers ERROR with a platform
message containing "does not exist" is treated as transient by the catch
condition instead of raising a fatal error: the run goes on to the next
poll and succeeds. -/
theorem c5_error_status_counterexample :
    pollED 0 = PollResult.ok "ERROR" (some "this container does not exist")
    ∧ waitForContainerReady pollED 10 = Except.ok "FINISHED" := by
  exact ⟨rfl, rfl⟩

/-- Exhausting the retry budget on transient polls throws the timeout
error. -/
theorem waitGo_exhaust (responses : Nat → PollResult) (n : Nat) :
    ∀ (fuel i : Nat), (∀ j, i ≤ j → j < i + fuel → pollStep (responses j) = Except.ok false) →
      waitGo responses n i fuel = Except.error (timeoutError n) := by
  intro fuel
  induction fuel with
  | zero => intro i h; rfl
  | succ f ih =>
    intro i h
    have h0 : pollStep (responses i) = Except.ok false := h i (le_refl i) (by omega)
    have step : waitGo responses n i (f + 1) = waitGo responses n (i + 1) f := by
      simp [waitGo, h0]
    rw [step]
    exact ih (i + 1) fun j hj1 hj2 => h j (by omega) (by omega)

/-- The polling loop only ever reads the responses inside its retry
budget. -/
theorem waitGo_congr (f g : Nat → PollResult) (n : Nat) :
    ∀ (fuel i : Nat), (∀ j, i ≤ j → j < i + fuel → f j = g j) →
      waitGo f n i fuel = waitGo g n i fuel := by
  intro fuel
  induction fuel with
  | zero => intro i h; rfl
  | succ fl ih =>
    intro i h
    have h0 : f i = g i := h i (le_refl i) (by omega)
    have ihx := ih (i + 1) fun j hj1 hj2 => h j (by omega) (by omega)
    simp only [waitGo, h0]
    cases pollStep (g i) with
    | error e => rfl
    | ok b => cases b with
      | true => rfl
      | false => exact ihx

/-- C5 amended: a 404 on the status query is transient and the poll is
retried; an ERROR status raises a fatal error carrying the platform
message, unless that message contains "does not exist", in which case
the catch condition treats it as transient; exhausting the bounded
retry count on transient polls raises the "never became ready" timeout
error; and the loop terminates within the retry budget — its outcome
depends only on the first maxRetries responses. -/
theorem c5_polling_behaviour :
    (∀ m : String, pollStep (PollResult.fail (some 404) m) = Except.ok false)
    ∧ (∀ (responses : Nat → PollResult) (n i fuel : Nat),
        pollStep (responses i) = Except.ok false →
        waitGo responses n i (fuel + 1) = waitGo responses n (i + 1) fuel)
    ∧ (∀ m : String, m ≠ "" → jsIncludes ("コンテナエラー: " ++ m) "does not exist" = false →
        pollStep (PollResult.ok "ERROR" (some m)) =
          Except.error ⟨none, "コンテナエラー: " ++ m⟩)
    ∧ (∀ (responses : Nat → PollResult) (n : Nat),
        (∀ i, i < n → pollStep (responses i) = Except.ok false) →
        waitForContainerReady responses n = Except.error (timeoutError n))
    ∧ (∀ (f g : Nat → PollResult) (n : Nat), (∀ i, i < n → f i = g i) →
        waitForContainerReady f n = waitForContainerReady g n) := by
  refine ⟨?_, ?_, ?_, ?_, ?_⟩
  · intro m
    simp [pollStep, isTransientErr]
  · intro responses n i fuel h
    simp [waitGo, h]
  · intro m hm hinc
    simp [pollStep, jsOrString, hm, isTransientErr, hinc]
  · intro responses n h
    exact waitGo_exhaust responses n n 0 fun j hj1 hj2 => h j (by omega)
  · intro f g n h
    exact waitGo_congr f g n n 0 fun j hj1 hj2 => h j (by omega)

theorem c5_polling_witness :
    waitForContainerReady (fun _ => PollResult.fail (some 404) "nf") 2 =
      Except.error (timeoutError 2) :=
  c5_polling_behaviour.2.2.2.1 (fun _ => PollResult.fail (some 404) "nf") 2
    fun i _ => c5_polling_behaviour.1 "nf"

/-- C1: in a non-dry-run posting run, a history record is appended
exactly when the two-phase publish succeeded with a post id — the
record then survives the retention pruning of saveHistory — and a run
whose publish pipeline throws (container creation, polling, or the
publish call) exits 1 with the history file untouched. -/
theorem c1_publish_atomicity (env : PublishEnv) (text cat tk acc : String)
    (file : HistoryFile) (now : Int) :
    (∀ tid, publishPost env = Except.ok tid →
      publishAndRecord false env text cat tk acc file now =
        (some (Except.ok (saveHistory (mkPostEntry now cat tk text tid acc) file now)), 0)
      ∧ mkPostEntry now cat tk text tid acc ∈
          (saveHistory (mkPostEntry now cat tk text tid acc) file now).posts)
    ∧ (∀ e, publishPost env = Except.error e →
      publishAndRecord false env text cat tk acc file now = (file, 1)) := by
  constructor
  · intro tid h
    constructor
    · simp [publishAndRecord, h]
    · have hd : now - HISTORY_RETENTION_DAYS * dayMs < (mkPostEntry now cat tk text tid acc).date := by
        simp only [mkPostEntry, HISTORY_RETENTION_DAYS, dayMs]
        omega
      simp [saveHistory, List.mem_filter, hd]
  · intro e h
    simp [publishAndRecord, h]

theorem c1_publish_atomicity_witness :
    publishPost envSuccess = Except.ok "tid1"
    ∧ publishAndRecord false envSuccess "t" "cat" "key" "business" none 0 =
        (some (Except.ok ⟨[mkPostEntry 0 "cat" "key" "t" "tid1" "business"]⟩), 0) := by
  have h := (c1_publish_atomicity envSuccess "t" "cat" "key" "business" none 0).1 "tid1" rfl
  refine ⟨rfl, ?_⟩
  rw [h.1]
  rfl

/-- C6 counterexample: a run whose first candidate is replied to
successfully and whose second candidate hits a fatal reply-generation
error exits 1, although one reply succeeded (the claim requires exit
0 for every run with at least one successful reply). -/
theorem c6_zero_success_exit_counterexample :
    buzzSuccessCount [candOk, candGenFail] 0 10 = 1
    ∧ buzzMain 0 [candOk, candGenFail] = 1 := by
  have h45 : (0 : Rat) < 4 / 5 := by norm_num
  constructor
  · simp [buzzSuccessCount, candOk, candGenFail, buzzInsights, getBuzzLevel, h45]
  · simp [buzzMain, buzzLoop, candOk, candGenFail, buzzInsights, getBuzzLevel, h45,
      MAX_DAILY_REPLIES]

/-- C6 amended: below the daily cap, a run whose completed candidate
loop replied to nothing while candidates existed exits 1; a run with no
candidates exits 0; a completed loop with at least one successful reply
exits 0; and a fatal error escaping the loop (an uncaught reply-text
generation failure) exits 1 even when an earlier reply in the same run
succeeded. -/
theorem c6_exit_code (todayCount : Nat) (cands : List ReplyCandidate)
    (h : todayCount < 10) :
    (cands ≠ [] → buzzLoop cands 0 (10 - todayCount) = some 0 →
      buzzMain todayCount cands = 1)
    ∧ (cands = [] → buzzMain todayCount cands = 0)
    ∧ (∀ n, buzzLoop cands 0 (10 - todayCount) = some n → 0 < n →
        buzzMain todayCount cands = 0)
    ∧ (buzzLoop cands 0 (10 - todayCount) = none → buzzMain todayCount cands = 1) := by
  have hcap : ¬(MAX_DAILY_REPLIES ≤ todayCount) := by
    simp only [MAX_DAILY_REPLIES]
    omega
  refine ⟨?_, ?_, ?_, ?_⟩
  · intro hne hl
    have hie : cands.isEmpty = false := by
      cases cands with
      | nil => exact absurd rfl hne
      | cons a l => rfl
    simp [buzzMain, hcap, hie, MAX_DAILY_REPLIES] at hl ⊢
    simp [hl]
    omega
  · intro hnil
    subst hnil
    simp [buzzMain, hcap]
  · intro n hl hn
    cases cands with
    | nil => simp [buzzMain, hcap]
    | cons a l =>
      simp [buzzMain, hcap, MAX_DAILY_REPLIES] at hl ⊢
      simp [hl]
      omega
  · intro hl
    cases cands with
    | nil => simp [buzzLoop] at hl
    | cons a l =>
      simp [buzzMain, hcap, MAX_DAILY_REPLIES] at hl ⊢
      simp [hl]
      omega

theorem c6_exit_code_witness :
    (0 : Nat) < 10 ∧ buzzMain 0 [candOk] = 0 := by
  have h45 : (0 : Rat) < 4 / 5 := by norm_num
  have hloop : buzzLoop [candOk] 0 (10 - 0) = some 1 := by
    simp [buzzLoop, candOk, buzzInsights, getBuzzLevel, h45]
  exact ⟨by omega, (c6_exit_code 0 [candOk] (by omega)).2.2.1 1 hloop (by omega)⟩

set_option maxRecDepth 8000 in
/-- C2: evaluating the source generatePost at the failing input — every
attempt answers 501 characters, so all 3 attempts fail validation.  The
function returns the truncated text (497 characters plus the ellipsis,
500 in total) unconditionally: it has no isStealth parameter and no
null-returning path, so a stealth account receives the same truncated
text as a non-stealth one, and the stealth null-check in the poster
main is unreachable. -/
theorem c2_exhausted_attempts_truncate :
    generatePost overlongGen emptyCfg = String.mk (List.replicate 497 'a') ++ "..."
    ∧ (generatePost overlongGen emptyCfg).length = 500 := by
  constructor <;> rfl

/-- The clamp keeps every multiplier inside [0.5, 1.5]. -/
theorem clampMultiplier_bounds (r : Rat) :
    1 / 2 ≤ clampMultiplier r ∧ clampMultiplier r ≤ 3 / 2 := by
  unfold clampMultiplier
  refine ⟨le_max_left _ _, max_le (by norm_num) (min_le_left _ _)⟩

/-- A zero ratio clamps to 0.5, not to 0. -/
theorem clampMultiplier_zero : clampMultiplier 0 = 1 / 2 := by
  unfold clampMultiplier
  rw [min_eq_right (by norm_num : (0 : Rat) ≤ 3 / 2), max_eq_left (by norm_num : (0 : Rat) ≤ 1 / 2)]

/-- C4: for every category that qualifies for adjustment (at least 3
categories with data, nonzero overall average, the category present
with at least 2 samples), the adjusted weight is
round(weight * clamp(avg / overallAvg, 0.5, 1.5)); the multiplier lies
in [0.5, 1.5] for every engagement magnitude, and a zero category
average clamps to 0.5. -/
theorem c4_weight_adjustment (base : List Category) (file : HistoryFile) (now : Int)
    (perf : List (String × CatPerf)) (i : Nat) (cat : Category) (cp : CatPerf)
    (hperf : analyzeCategoryPerformance file now = some perf)
    (hlen : ¬perf.length < 3)
    (havg : ¬overallAvg perf = 0)
    (hcat : base[i]? = some cat)
    (hcp : lookupPerf cat.id perf = some cp)
    (hcount : ¬cp.postCount < 2) :
    (getAdjustedWeights base file now)[i]? =
      some { cat with weight :=
        (jsRound (cat.weight * clampMultiplier (cp.avgScore / overallAvg perf)) : Rat) }
    ∧ 1 / 2 ≤ clampMultiplier (cp.avgScore / overallAvg perf)
    ∧ clampMultiplier (cp.avgScore / overallAvg perf) ≤ 3 / 2
    ∧ (cp.avgScore = 0 → clampMultiplier (cp.avgScore / overallAvg perf) = 1 / 2) := by
  refine ⟨?_, (clampMultiplier_bounds _).1, (clampMultiplier_bounds _).2, ?_⟩
  · simp [getAdjustedWeights, hperf, hlen, havg, List.getElem?_map, hcat, hcp, hcount]
  · intro h0
    rw [h0, zero_div]
    exact clampMultiplier_zero

theorem c4_weight_adjustment_witness :
    analyzeCategoryPerformance c4File 1 = some perfC4
    ∧ (getAdjustedWeights [catX] c4File 1)[0]? = some { catX with weight := 5 }
    ∧ clampMultiplier ((0 : Rat) / overallAvg perfC4) = 1 / 2 := by
  have hxy : ¬("x" : String) = "y" := by decide
  have hxz : ¬("x" : String) = "z" := by decide
  have hyz : ¬("y" : String) = "z" := by decide
  have hperf : analyzeCategoryPerformance c4File 1 = some perfC4 := by
    norm_num [analyzeCategoryPerformance, loadHistory, c4File, groupStats, bumpStat,
      mkEngPost, LEARNING_WINDOW_DAYS, dayMs, perfC4, CatPerf.mk.injEq, hxy, hxz, hyz]
  have h := c4_weight_adjustment [catX] c4File 1 perfC4 0 catX ⟨0, 2⟩ hperf
    (by norm_num [perfC4]) (by norm_num [overallAvg, perfC4]) rfl
    (by norm_num [lookupPerf, perfC4, catX]) (by norm_num)
  have hclamp : clampMultiplier ((0 : Rat) / overallAvg perfC4) = 1 / 2 := h.2.2.2 rfl
  refine ⟨hperf, ?_, hclamp⟩
  rw [h.1]
  have hw : (jsRound (catX.weight * clampMultiplier ((0 : Rat) / overallAvg perfC4)) : Rat) = 5 := by
    rw [hclamp]
    norm_num [catX, jsRound]
  rw [show (⟨0, 2⟩ : CatPerf).avgScore = (0 : Rat) from rfl] at h ⊢
  rw [hw]

/-- C8: the weight adjuster leaves every base weight unchanged when it
has no engagement data at all or data in fewer than 3 categories, and
leaves an individual category unchanged when the category has no data
or fewer than 2 sampled posts.  The embedding is a pure function of the
loaded history: the source performs only loadHistory reads here and no
writes. -/
theorem c8_thin_sample_guard (base : List Category) (file : HistoryFile) (now : Int) :
    (analyzeCategoryPerformance file now = none → getAdjustedWeights base file now = base)
    ∧ (∀ perf, analyzeCategoryPerformance file now = some perf → perf.length < 3 →
        getAdjustedWeights base file now = base)
    ∧ (∀ (perf : List (String × CatPerf)) (i : Nat) (cat : Category),
        analyzeCategoryPerformance file now = some perf →
        base[i]? = some cat →
        (lookupPerf cat.id perf = none ∨
          ∃ cp, lookupPerf cat.id perf = some cp ∧ cp.postCount < 2) →
        (getAdjustedWeights base file now)[i]? = some cat) := by
  refine ⟨?_, ?_, ?_⟩
  · intro h
    simp [getAdjustedWeights, h]
  · intro perf hperf hlt
    simp [getAdjustedWeights, hperf, hlt]
  · intro perf i cat hperf hcat hor
    by_cases hlen : perf.length < 3
    · simp [getAdjustedWeights, hperf, hlen, hcat]
    · by_cases havg : overallAvg perf = 0
      · simp [getAdjustedWeights, hperf, hlen, havg, hcat]
      · rcases hor with hnone | ⟨cp, hcp, hlt2⟩
        · simp [getAdjustedWeights, hperf, hlen, havg, List.getElem?_map, hcat, hnone]
        · simp [getAdjustedWeights, hperf, hlen, havg, List.getElem?_map, hcat, hcp, hlt2]

theorem c8_thin_sample_guard_witness :
    analyzeCategoryPerformance c8File 1 = some perfC8
    ∧ perfC8.length < 3
    ∧ getAdjustedWeights [catX] c8File 1 = [catX] := by
  have hxy : ¬("x" : String) = "y" := by decide
  have hperf : analyzeCategoryPerformance c8File 1 = some perfC8 := by
    norm_num [analyzeCategoryPerformance, loadHistory, c8File, groupStats, bumpStat,
      mkEngPost, LEARNING_WINDOW_DAYS, dayMs, perfC8, CatPerf.mk.injEq, hxy]
  exact ⟨hperf, by norm_num [perfC8],
    (c8_thin_sample_guard [catX] c8File 1).2.1 perfC8 hperf (by norm_num [perfC8])⟩

/-- C9 counterexample: the cited getInsights catches its API error and
returns the all-zero metrics; collectEngagement then records that zero
snapshot on the record whose fetch failed, so the record does not stay
eligible for a future run, contradicting the claim. -/
theorem c9_failed_fetch_counterexample :
    getPostsNeedingEngagement c9Hist 0 = [c9Post]
    ∧ (findPost "t1" (collectEngagement c9Hist c9FailOutcomes 0)).map Post.engagement =
        some (some zeroInsights)
    ∧ getPostsNeedingEngagement (collectEngagement c9Hist c9FailOutcomes 0) 0 = [] := by
  refine ⟨rfl, rfl, rfl⟩

theorem setEngagement_threadId (p : Post) (ins : Insights) (now : Int) :
    (setEngagement p ins now).threadId = p.threadId := rfl

/-- An update keyed to a different thread id does not change what a
lookup observes. -/
theorem find?_updateFirstPost_ne (tid tid' : String) (ins : Insights) (now : Int)
    (hne : tid' ≠ tid) :
    ∀ l : List Post,
      (updateFirstPost tid ins now l).find? (fun p => p.threadId = tid') =
        l.find? (fun p => p.threadId = tid') := by
  intro l
  induction l with
  | nil => rfl
  | cons p rest ih =>
    have hne' : ¬tid = tid' := fun hcl => hne hcl.symm
    by_cases hp : p.threadId = tid
    · have hp' : ¬p.threadId = tid' := by
        rw [hp]
        exact hne'
      simp [updateFirstPost, hp, List.find?, setEngagement, hp', hne']
    · by_cases hq : p.threadId = tid'
      · simp [updateFirstPost, hp, List.find?, hq, hne', hne]
      · simp [updateFirstPost, hp, List.find?, hq, ih, hne', hne]

/-- The update keyed to the found record replaces it in what a lookup
observes. -/
theorem find?_updateFirstPost_eq (tid : String) (ins : Insights) (now : Int) :
    ∀ (l : List Post) (p : Post),
      l.find? (fun q => q.threadId = tid) = some p →
      (updateFirstPost tid ins now l).find? (fun q => q.threadId = tid) =
        some (setEngagement p ins now) := by
  intro l
  induction l with
  | nil => intro p hfd; simp [List.find?] at hfd
  | cons q rest ih =>
    intro p hfd
    by_cases hq : q.threadId = tid
    · rw [List.find?_cons_of_pos _ (by simpa using hq)] at hfd
      have hpq : q = p := by simpa using hfd
      subst hpq
      simp [updateFirstPost, hq, List.find?, setEngagement]
    · rw [List.find?_cons_of_neg _ (by simpa using hq)] at hfd
      have hstep : updateFirstPost tid ins now (q :: rest) =
          q :: updateFirstPost tid ins now rest := by
        simp [updateFirstPost, hq]
      rw [hstep, List.find?_cons_of_neg _ (by simpa using hq)]
      exact ih p hfd

/-- On a history whose thread ids are distinct, looking up the id of a
member finds that member. -/
theorem find?_tid_self :
    ∀ (l : List Post), (l.map Post.threadId).Nodup →
      ∀ p ∈ l, l.find? (fun q => q.threadId = p.threadId) = some p := by
  intro l
  induction l with
  | nil => intro _ p hp; simp at hp
  | cons q rest ih =>
    intro hnodup p hp
    rw [List.map_cons, List.nodup_cons] at hnodup
    rcases List.mem_cons.mp hp with hpq | hpr
    · subst hpq
      simp [List.find?]
    · by_cases hqp : q.threadId = p.threadId
      · exact absurd (hqp ▸ List.mem_map_of_mem Post.threadId hpr) hnodup.1
      · rw [List.find?_cons_of_neg _ (by simpa using hqp)]
        exact ih hnodup.2 p hpr

/-- updateFirstPost leaves the sequence of thread ids unchanged. -/
theorem updateFirstPost_map_tid (tid : String) (ins : Insights) (now : Int) :
    ∀ l : List Post,
      (updateFirstPost tid ins now l).map Post.threadId = l.map Post.threadId := by
  intro l
  induction l with
  | nil => rfl
  | cons p rest ih =>
    by_cases hp : p.threadId = tid
    · simp [updateFirstPost, hp, setEngagement]
    · simp [updateFirstPost, hp, ih]

/-- The collection fold leaves the sequence of thread ids unchanged. -/
theorem collectFold_map_tid (outcomes : String → Except ThrownError Insights) (now : Int) :
    ∀ (l : List Post) (acc : History),
      ((l.foldl (collectStep outcomes now) acc).posts.map Post.threadId) =
        acc.posts.map Post.threadId := by
  intro l
  induction l with
  | nil => intro acc; rfl
  | cons p rest ih =>
    intro acc
    rw [List.foldl_cons, ih]
    exact updateFirstPost_map_tid p.threadId (getInsights (outcomes p.threadId)) now acc.posts

/-- Updates keyed to other thread ids never disturb a lookup. -/
theorem collectFold_find_ne (outcomes : String → Except ThrownError Insights) (now : Int) :
    ∀ (l : List Post) (acc : History) (tid' : String),
      tid' ∉ l.map Post.threadId →
      findPost tid' (l.foldl (collectStep outcomes now) acc) = findPost tid' acc := by
  intro l
  induction l with
  | nil => intro acc tid' _; rfl
  | cons p rest ih =>
    intro acc tid' hnin
    rw [List.map_cons, List.mem_cons] at hnin
    push_neg at hnin
    rw [List.foldl_cons, ih _ _ hnin.2]
    exact find?_updateFirstPost_ne p.threadId tid' _ now hnin.1 acc.posts

/-- Each record of the batch ends up updated with its own insights
outcome, independent of the other records. -/
theorem collectFold_updates (outcomes : String → Except ThrownError Insights) (now : Int) :
    ∀ (l : List Post) (acc : History),
      (l.map Post.threadId).Nodup →
      (∀ p ∈ l, findPost p.threadId acc = some p) →
      ∀ p ∈ l,
        findPost p.threadId (l.foldl (collectStep outcomes now) acc) =
          some (setEngagement p (getInsights (outcomes p.threadId)) now) := by
  intro l
  induction l with
  | nil => intro acc _ _ p hp; simp at hp
  | cons q rest ih =>
    intro acc hnodup hfind p hp
    rw [List.map_cons, List.nodup_cons] at hnodup
    have hfq : findPost q.threadId acc = some q := hfind q (List.mem_cons_self q rest)
    rw [List.foldl_cons]
    rcases List.mem_cons.mp hp with hpq | hpr
    · subst hpq
      rw [collectFold_find_ne outcomes now rest _ p.threadId hnodup.1]
      exact find?_updateFirstPost_eq p.threadId _ now acc.posts p hfq
    · refine ih _ hnodup.2 ?_ p hpr
      intro r hr
      have hrq : r.threadId ≠ q.threadId := by
        intro hcl
        exact hnodup.1 (hcl ▸ List.mem_map_of_mem Post.threadId hr)
      rw [show (collectStep outcomes now acc q) =
        updatePostEngagement q.threadId (getInsights (outcomes q.threadId)) acc now from rfl]
      have := find?_updateFirstPost_ne q.threadId r.threadId
        (getInsights (outcomes q.threadId)) now hrq acc.posts
      exact this.trans (hfind r (List.mem_cons_of_mem q hr))

/-- C9 amended: the run processes exactly the bounded batch (at most 10
records); every batch record is recorded with the snapshot of its own
fetch outcome, so a failure for one record does not abort or disturb
the rest of the batch; but a record whose fetch failed at the API level
receives the all-zero snapshot (getInsights swallows the error), and
therefore no batch record remains eligible for a future run. -/
theorem c9_batch_processing (h : History)
    (outcomes : String → Except ThrownError Insights) (now : Int)
    (hnodup : (h.posts.map Post.threadId).Nodup) :
    ((getPostsNeedingEngagement h now).take 10).length ≤ 10
    ∧ (∀ p ∈ (getPostsNeedingEngagement h now).take 10,
        findPost p.threadId (collectEngagement h outcomes now) =
          some (setEngagement p (getInsights (outcomes p.threadId)) now))
    ∧ (∀ p ∈ (getPostsNeedingEngagement h now).take 10, ∀ e,
        outcomes p.threadId = Except.error e →
        findPost p.threadId (collectEngagement h outcomes now) =
          some (setEngagement p zeroInsights now))
    ∧ (∀ q ∈ getPostsNeedingEngagement (collectEngagement h outcomes now) now,
        q.threadId ∉ ((getPostsNeedingEngagement h now).take 10).map Post.threadId) := by
  have hsub : List.Sublist ((getPostsNeedingEngagement h now).take 10) h.posts :=
    (List.take_sublist _ _).trans (List.filter_sublist _)
  have hbatchnodup : (((getPostsNeedingEngagement h now).take 10).map Post.threadId).Nodup :=
    List.Nodup.sublist (hsub.map Post.threadId) hnodup
  have hfind0 : ∀ p ∈ (getPostsNeedingEngagement h now).take 10,
      findPost p.threadId h = some p :=
    fun p hp => find?_tid_self h.posts hnodup p (hsub.subset hp)
  have hmain := collectFold_updates outcomes now
    ((getPostsNeedingEngagement h now).take 10) h hbatchnodup hfind0
  have hcollect : collectEngagement h outcomes now =
      ((getPostsNeedingEngagement h now).take 10).foldl (collectStep outcomes now) h := rfl
  refine ⟨?_, ?_, ?_, ?_⟩
  · rw [List.length_take]
    exact Nat.min_le_left _ _
  · intro p hp
    rw [hcollect]
    exact hmain p hp
  · intro p hp e he
    rw [hcollect]
    have := hmain p hp
    rwa [he] at this
  · intro q hq hmem
    rcases List.mem_map.mp hmem with ⟨p, hp, hptid⟩
    have hfinal := hmain p hp
    have htid : ((collectEngagement h outcomes now).posts.map Post.threadId).Nodup := by
      rw [hcollect, collectFold_map_tid]
      exact hnodup
    have hqmem : q ∈ (collectEngagement h outcomes now).posts :=
      List.mem_of_mem_filter hq
    have hqfind : findPost q.threadId (collectEngagement h outcomes now) = some q :=
      find?_tid_self _ htid q hqmem
    rw [hcollect] at hqfind
    rw [← hptid] at hqfind
    have hqeq : q = setEngagement p (getInsights (outcomes p.threadId)) now := by
      have := hqfind.symm.trans hfinal
      simpa using this
    have hqnone : q.engagement.isNone = true := by
      have hfl := List.of_mem_filter hq
      simp only [Bool.and_eq_true, decide_eq_true_eq] at hfl
      tauto
    rw [hqeq] at hqnone
    simp [setEngagement] at hqnone

theorem c9_batch_processing_witness :
    findPost "t1" (collectEngagement c9Hist2 c9MixedOutcomes 0) =
      some (setEngagement c9Post zeroInsights 0)
    ∧ findPost "t2" (collectEngagement c9Hist2 c9MixedOutcomes 0) =
      some (setEngagement c9Post2 ⟨5, 2, 1, 0, 0⟩ 0) := by
  have h := c9_batch_processing c9Hist2 c9MixedOutcomes 0 (by decide)
  constructor
  · exact h.2.2.1 c9Post (by decide) ⟨some 500, "Threads API 500: fail"⟩ rfl
  · exact h.2.1 c9Post2 (by decide)

end MieThreads
